import Mathlib

/-!
Formal model of the AFP email-analysis subsystem.

The extraction-and-classification pipeline of this repository is specified in
`docs/EMAIL_ANALYSIS_SYSTEM_PLAN.md`; the definitions below are a shallow
embedding of the Python classes given there (`SecureLLMClient`,
`TemplateSecurityValidator`, `SecureHTMLTemplate`, `Tier1RegexStrategy`,
`SmartEmailProcessor`, `ValidationEngine`) together with the token-refresh
logic of `frontend/src/hooks/useAuth.ts`.  Confidence scores and monetary
values are modelled as exact rationals; template configurations are flat
association lists of string keys and string values, mirroring the JSON shape
produced by `llm_generate_parsing_config`.
-/

namespace AFP

/-! ## Generic character-list helpers -/

/-- Boolean test that `pat` is a prefix of `s` (character lists). -/
def startsWithL : List Char → List Char → Bool
  | [], _ => true
  | _ :: _, [] => false
  | p :: ps, c :: cs => p == c && startsWithL ps cs

/-- Boolean test that `pat` occurs as a contiguous subsequence of `s`. -/
def containsSeq (pat : List Char) : List Char → Bool
  | [] => startsWithL pat []
  | c :: cs => startsWithL pat (c :: cs) || containsSeq pat cs

/-! ## Rule Synthesis Guard: denylist validation and sanitization

Embedded from `TemplateSecurityValidator.validate_css_selectors` and
`SecureLLMClient.sanitize_css_selectors` in the system plan. -/

/-- The denylisted injection markers of
`TemplateSecurityValidator.validate_css_selectors` (the `dangerous_patterns`
list): `javascript:`, `data:`, `<script`, `eval(`, `expression(`. -/
def dangerous_patterns : List String :=
  ["javascript:", "data:", "<script", "eval(", "expression("]

/-- `re.search(pattern, selector, re.IGNORECASE)` over the denylist: the
string `v`, lower-cased, contains one of the `dangerous_patterns`. -/
def hasDangerousPattern (v : String) : Bool :=
  dangerous_patterns.any (fun p => containsSeq p.data (v.data.map Char.toLower))

/-- `TemplateSecurityValidator.validate_css_selectors`: returns `false` as
soon as any config value contains a denylisted marker, `true` otherwise. -/
def validate_css_selectors (config : List (String × String)) : Bool :=
  config.all (fun kv => !hasDangerousPattern kv.2)

/-- `TemplateSecurityValidator.validate_template_security`: the conjunction of
the four check results.  `check_code_injection_patterns`,
`validate_regex_patterns` and `validate_output_format` have no body in the
source, so their outcomes are taken as parameters. -/
def validate_template_security (codeInjectionOk regexOk outputOk : Bool)
    (config : List (String × String)) : Bool :=
  validate_css_selectors config && codeInjectionOk && regexOk && outputOk

/-- The character class removed by `sanitize_css_selectors`
(`re.sub(r'[<>(){}[\];]', '', selector)`), written by code point:
`<ascii 60>`, `>`, `(`, `)`, both braces (123 and 125), `[`, `]`, `;`. -/
def dangerousChars : List Char :=
  ['<', '>', '(', ')', Char.ofNat 123, Char.ofNat 125, '[', ']', ';']

/-- Removal of the dangerous characters from a selector string. -/
def cleanSelector (s : String) : String :=
  String.mk (s.data.filter (fun c => !(dangerousChars.contains c)))

/-- `SecureLLMClient.allowed_output_keys`. -/
def allowed_output_keys : List String :=
  ["amount_selector", "merchant_selector", "date_selector"]

/-- Modelled from the spec: the helper `is_valid_css_selector` has no body in
the source.  Per the spec a selector is a declarative structural path
expression, so validity is modelled syntactically: nonempty, made of
identifier characters and simple CSS punctuation. -/
def is_valid_css_selector (s : String) : Bool :=
  !s.data.isEmpty &&
    s.data.all (fun c =>
      c.isAlphanum || [' ', '.', '#', '-', '_', ':', '*', ','].contains c)

/-- `SecureLLMClient.sanitize_css_selectors`: keep only allow-listed keys,
remove dangerous characters from each selector, and keep the cleaned
selector only when it is still a valid CSS selector. -/
def sanitize_css_selectors (config : List (String × String)) :
    List (String × String) :=
  config.filterMap (fun kv =>
    if allowed_output_keys.contains kv.1 then
      let cl := cleanSelector kv.2
      if is_valid_css_selector cl then some (kv.1, cl) else none
    else none)

/-- Modelled from the spec: §4.4 orders the guard as parse → denylist
validation → persistence, and the source shows `sanitize_css_selectors`
running inside `structured_json_response` before any template exists, and
`TemplateSecurityValidator` validating templates before production use; the
glue that persists a synthesized config only after the validator accepts it
is taken from the spec.  Returns the updated store and whether the attempt
was accepted. -/
def synthesize_template (codeInjectionOk regexOk outputOk : Bool)
    (store : List (List (String × String))) (raw : List (String × String)) :
    List (List (String × String)) × Bool :=
  let cfg := sanitize_css_selectors raw
  if validate_template_security codeInjectionOk regexOk outputOk cfg then
    (store ++ [cfg], true)
  else
    (store, false)

/-- Outcome of `SecureTemplateManager.generate_secure_template`: either a
template built from the LLM configuration, or the regex-only fallback
template produced by `create_regex_fallback_template`. -/
inductive SynthesizedTemplate
  | fromConfig (config : List (String × String))
  | regexFallback
deriving DecidableEq, Repr

/-- `SecureTemplateManager.generate_secure_template`: if the parser
validation score exceeds `0.7` the template from the config is returned and
queued for human review (second component `true`); otherwise the regex
fallback template is returned. -/
def generate_secure_template (validation_score : ℚ)
    (config : List (String × String)) : SynthesizedTemplate × Bool :=
  if (0.7 : ℚ) < validation_score then (.fromConfig config, true)
  else (.regexFallback, false)

/-! ## Template data model and lifecycle -/

/-- The `SecureHTMLTemplate` Django model of the system plan, with its
declared field defaults. -/
structure SecureHTMLTemplate where
  bank : String
  template_name : String
  amount_selector : String
  merchant_selector : String
  date_selector : String
  reference_selector : String
  amount_regex : String
  date_format : String
  security_validated : Bool
  human_reviewed : Bool
  security_score : ℚ
  success_count : ℕ
  failure_count : ℕ
  confidence_score : ℚ
deriving DecidableEq, Repr

/-- Creation of a `SecureHTMLTemplate` row with the model's declared
defaults: `security_validated=False`, `human_reviewed=False`,
`security_score=0.0`, `success_count=0`, `failure_count=0`,
`confidence_score=0.0`. -/
def newSecureHTMLTemplate (bank template_name amount_selector
    merchant_selector date_selector reference_selector amount_regex
    date_format : String) : SecureHTMLTemplate :=
  { bank := bank
    template_name := template_name
    amount_selector := amount_selector
    merchant_selector := merchant_selector
    date_selector := date_selector
    reference_selector := reference_selector
    amount_regex := amount_regex
    date_format := date_format
    security_validated := false
    human_reviewed := false
    security_score := 0
    success_count := 0
    failure_count := 0
    confidence_score := 0 }

/-- Lifecycle events a template can receive after creation. -/
inductive TemplateEvent
  | recordSuccess
  | recordFailure
  | humanApprove
deriving DecidableEq, Repr

/-- Modelled from the spec: §4.4 step 5 — a template's `security_validated`
flag flips to true only when its success count reaches the promotion
threshold or a human reviewer explicitly approves it; the flag is never
cleared.  The source declares the counters and flags on
`SecureHTMLTemplate` and calls `reinforce_template` without a body. -/
def applyTemplateEvent (promotion_threshold : ℕ) (t : SecureHTMLTemplate) :
    TemplateEvent → SecureHTMLTemplate
  | .recordSuccess =>
    let t' := { t with success_count := t.success_count + 1 }
    if promotion_threshold ≤ t'.success_count then
      { t' with security_validated := true }
    else t'
  | .recordFailure => { t with failure_count := t.failure_count + 1 }
  | .humanApprove =>
    { t with human_reviewed := true, security_validated := true }

/-- Folding a sequence of lifecycle events over a template. -/
def runTemplateEvents (promotion_threshold : ℕ) (t : SecureHTMLTemplate)
    (evs : List TemplateEvent) : SecureHTMLTemplate :=
  evs.foldl (applyTemplateEvent promotion_threshold) t

/-! ## Tiered extraction -/

/-- The email payload handed to an extraction strategy. -/
structure EmailData where
  bank : String
  subject : String
  body : String
deriving DecidableEq, Repr

/-- The result record produced by a tier strategy: extracted fields,
confidence, processing time (ms), attributed cost, and the number of
external inference calls made. -/
structure TierResult where
  fields : List (String × String)
  confidence : ℚ
  processing_time : ℕ
  cost : ℚ
  external_calls : ℕ
deriving DecidableEq, Repr

/-- `Tier1RegexStrategy.extract`: applies the template's regex extractor to
the body and stamps the result with `confidence = 0.95`,
`processing_time = 50`, `cost = 0`; no API calls are made.  The
`RegexExtractor` itself has no body in the source and is a parameter. -/
def tier1_extract
    (regexExtract : SecureHTMLTemplate → String → List (String × String))
    (t : SecureHTMLTemplate) (e : EmailData) : TierResult :=
  { fields := regexExtract t e.body
    confidence := 0.95
    processing_time := 50
    cost := 0
    external_calls := 0 }

/-- A tier accepts when the result confidence exceeds that tier's acceptance
threshold. -/
def tier_accepts (results thresholds : ℕ → ℚ) (t : ℕ) : Bool :=
  decide (thresholds t < results t)

/-- Modelled from the spec: §4.3 — the engine tries the listed tiers in
order, stops at the first tier whose result confidence exceeds its
acceptance threshold, and otherwise escalates.  The source's
`SmartEmailProcessor.process_email` delegates to
`select_processing_strategy`, whose escalation internals are not written
out.  Returns the trace of tiers run and the accepting tier, if any. -/
def escalate_tiers (results thresholds : ℕ → ℚ) :
    List ℕ → List ℕ × Option ℕ
  | [] => ([], none)
  | t :: ts =>
    if tier_accepts results thresholds t then ([t], some t)
    else
      let p := escalate_tiers results thresholds ts
      (t :: p.1, p.2)

/-- One processing attempt over the four tiers `1, 2, 3, 4` in
cost-ascending order. -/
def process_email_tiers (results thresholds : ℕ → ℚ) : List ℕ × Option ℕ :=
  escalate_tiers results thresholds [1, 2, 3, 4]

/-! ## Validation and learning -/

/-- Modelled from the spec: §4.5 — the three validation confidences are
combined by taking the minimum (a conjunctive policy); the source's
`consolidate_validations` has no body. -/
def consolidate_validations (auto stat sim : ℚ) : ℚ :=
  min auto (min stat sim)

/-- The finalized result of `ValidationEngine.validate_and_learn`. -/
structure ValidatedResult where
  confidence : ℚ
  needs_review : Bool
deriving DecidableEq, Repr

/-- `ValidationEngine.validate_and_learn`: consolidates the three check
confidences, queues the result for human review when the final confidence
is below `0.8`, and reinforces the used template (a success event, with
promotion considered at the threshold) when the final confidence is
strictly above `0.9`.  Returns the finalized result, the updated template,
and whether the result was routed to review. -/
def validate_and_learn (promotion_threshold : ℕ) (auto stat sim : ℚ)
    (t : SecureHTMLTemplate) : ValidatedResult × SecureHTMLTemplate × Bool :=
  let final := consolidate_validations auto stat sim
  let reviewed := decide (final < (0.8 : ℚ))
  let t' :=
    if (0.9 : ℚ) < final then applyTemplateEvent promotion_threshold t .recordSuccess
    else t
  ({ confidence := final, needs_review := reviewed }, t', reviewed)

/-! ## Exact decimal amounts -/

/-- Value of an ASCII digit character, if it is one. -/
def charVal (c : Char) : Option ℕ :=
  if c = '0' then some 0
  else if c = '1' then some 1
  else if c = '2' then some 2
  else if c = '3' then some 3
  else if c = '4' then some 4
  else if c = '5' then some 5
  else if c = '6' then some 6
  else if c = '7' then some 7
  else if c = '8' then some 8
  else if c = '9' then some 9
  else none

/-- ASCII digit character for a digit value (taken mod 10). -/
def valChar (d : ℕ) : Char := Char.ofNat (48 + d % 10)

/-- Big-endian digit-list parser, accumulating from the left; fails on any
non-digit character. -/
def digitsToNatAux : List Char → ℕ → Option ℕ
  | [], acc => some acc
  | c :: cs, acc =>
    match charVal c with
    | some d => digitsToNatAux cs (10 * acc + d)
    | none => none

/-- Parse a nonempty list of ASCII digits as a natural number. -/
def digitsToNat (l : List Char) : Option ℕ :=
  if l.isEmpty then none else digitsToNatAux l 0

/-- Little-endian digit printer with explicit fuel. -/
def natDigitsAux : ℕ → ℕ → List Char
  | 0, _ => []
  | _ + 1, 0 => []
  | fuel + 1, n + 1 => valChar ((n + 1) % 10) :: natDigitsAux fuel ((n + 1) / 10)

/-- Decimal digit string of a natural number (big-endian). -/
def natDigits (n : ℕ) : List Char :=
  if n = 0 then ['0'] else (natDigitsAux n n).reverse

/-- An exact monetary amount, held as an integral number of cents; mirrors
`Transaction.amount = DecimalField(max_digits=12, decimal_places=2)` and the
`universal_fields` entry `amount: Decimal`. -/
structure DecimalAmount where
  cents : ℕ
deriving DecidableEq, Repr

/-- The exact rational value of a `DecimalAmount`. -/
def amountToRat (a : DecimalAmount) : ℚ := (a.cents : ℚ) / 100

/-- Render an amount as a plain fixed-point decimal string with two
fractional digits. -/
def formatAmount (a : DecimalAmount) : String :=
  String.mk (natDigits (a.cents / 100) ++
    '.' :: valChar (a.cents % 100 / 10) :: [valChar (a.cents % 10)])

/-- Split a character list at the first `'.'`; the separator, when present,
stays at the head of the second component. -/
def splitAtDot : List Char → List Char × List Char
  | [] => ([], [])
  | c :: cs =>
    if c = '.' then ([], c :: cs)
    else
      let p := splitAtDot cs
      (c :: p.1, p.2)

/-- Parse a fixed-point decimal amount literal: thousands separators (commas)
are dropped, then the integer and two-digit fractional parts are read
exactly, with no rounding. -/
def parseAmountChars (l : List Char) : Option ℕ :=
  let cleaned := l.filter (fun c => !(c == ','))
  let p := splitAtDot cleaned
  match p.2 with
  | [] => (digitsToNat p.1).map (fun i => i * 100)
  | _ :: fp =>
    if fp.length = 2 then
      match digitsToNat p.1, digitsToNat fp with
      | some i, some f => some (i * 100 + f)
      | _, _ => none
    else none

/-- Modelled from the spec: §4.3 numeric semantics — extracted monetary
amounts are materialized as exact fixed-point decimals, never binary
floating point.  The source declares `safe_extract_amount` and the
`Decimal` fields without an implementation body. -/
def safe_extract_amount (s : String) : Option DecimalAmount :=
  (parseAmountChars s.data).map DecimalAmount.mk

/-! ## HTML entity decoding and merchant extraction -/

/-- Named HTML entities recognized by the model of `html.unescape`. -/
def namedEntityTable : List (List Char × Char) :=
  [("uacute".data, 'ú'), ("Uacute".data, 'Ú'),
   ("aacute".data, 'á'), ("Aacute".data, 'Á'),
   ("eacute".data, 'é'), ("Eacute".data, 'É'),
   ("iacute".data, 'í'), ("Iacute".data, 'Í'),
   ("oacute".data, 'ó'), ("Oacute".data, 'Ó'),
   ("ntilde".data, 'ñ'), ("Ntilde".data, 'Ñ'),
   ("amp".data, '&'), ("lt".data, '<'), ("gt".data, '>'),
   ("quot".data, '"'), ("nbsp".data, ' ')]

/-- Decode one entity name (the text between `&` and `;`): a numeric
character reference `#NNN` or a named entity from the table. -/
def entityValue (name : List Char) : Option Char :=
  match name with
  | '#' :: ds =>
    (digitsToNat ds).bind (fun n =>
      if n.isValidChar then some (Char.ofNat n) else none)
  | _ => (namedEntityTable.find? (fun kv => kv.1 == name)).map (·.2)

/-- Fueled scanner replacing every well-formed recognized entity reference
by its character and leaving all other text unchanged. -/
def unescapeAux : ℕ → List Char → List Char
  | 0, l => l
  | _ + 1, [] => []
  | fuel + 1, '&' :: rest =>
    match List.span (fun c => !(c == ';')) rest with
    | (name, ';' :: tail) =>
      match entityValue name with
      | some c => c :: unescapeAux fuel tail
      | none => '&' :: unescapeAux fuel rest
    | _ => '&' :: unescapeAux fuel rest
  | fuel + 1, c :: rest => c :: unescapeAux fuel rest

/-- The system plan's `clean_html_entities`, i.e. Python's `html.unescape`
(`N&uacute; → Nú`), modelled over the entity table above. -/
def clean_html_entities (s : String) : String :=
  String.mk (unescapeAux s.data.length s.data)

/-- Suffix of `s` after the first occurrence of `pat`, if any. -/
def findAfter (pat : List Char) (s : List Char) : Option (List Char) :=
  match s with
  | [] => if startsWithL pat [] then some [] else none
  | c :: cs =>
    if startsWithL pat (c :: cs) then some (List.drop pat.length (c :: cs))
    else findAfter pat cs

/-- Prefix of `s` before the first occurrence of `pat`, if any. -/
def takeBefore (pat : List Char) (s : List Char) : Option (List Char) :=
  match s with
  | [] => if startsWithL pat [] then some [] else none
  | c :: cs =>
    if startsWithL pat (c :: cs) then some []
    else (takeBefore pat cs).map (c :: ·)

/-- Modelled from the spec: §4.1 — entities are decoded before any pattern
matching runs.  The merchant field is matched, after normalization, as the
text between the fixed markers `" at "` and `" on "` of the notification
body (the spec's end-to-end scenario). -/
def extract_merchant (body : String) : Option String :=
  let t := (clean_html_entities body).data
  (findAfter " at ".data t).bind
    (fun rest => (takeBefore " on ".data rest).map String.mk)

/-! ## Frontend token refresh (`useAuth.ts`) -/

/-- The `localStorage` state read by `getStoredTokens`. -/
structure StoredAuth where
  access : Option String
  refresh : Option String
  user : Option String
deriving DecidableEq, Repr

/-- Observable actions of `makeAuthenticatedRequest`: an HTTP fetch (with
its call index and bearer token) or an invocation of `refreshTokens`. -/
inductive AuthEvent
  | fetchReq (idx : ℕ) (bearer : String)
  | refreshCall
deriving DecidableEq, Repr

/-- `refreshTokens` of `useAuth.ts`: returns `false` when no refresh token
is stored, when the refresh endpoint does not answer OK (modelled by
`svc = none`), or when no user is stored; otherwise stores the new token
pair and returns `true`. -/
def refreshTokens (st : StoredAuth) (svc : Option (String × String)) :
    Bool × StoredAuth :=
  match st.refresh with
  | none => (false, st)
  | some _ =>
    match svc with
    | none => (false, st)
    | some (a, r) =>
      match st.user with
      | some u => (true, { access := some a, refresh := some r, user := some u })
      | none => (false, st)

/-- Result of one `makeAuthenticatedRequest` call: the returned response
status or thrown error message, the trace of observable actions, and the
final stored state. -/
structure AuthOutcome where
  result : Except String ℕ
  events : List AuthEvent
  stored : StoredAuth
deriving Repr

/-- `makeAuthenticatedRequest` of `useAuth.ts`: throws when no access token
is stored; fetches with the stored bearer token; on a 401 response calls
`refreshTokens` once and, if it succeeded, refetches once with the newly
stored access token (returning that response whatever its status), and
otherwise throws `Authentication expired`.  `net i tok` is the status the
network returns to the `i`-th fetch carrying bearer `tok`. -/
def makeAuthenticatedRequest (st : StoredAuth) (net : ℕ → String → ℕ)
    (svc : Option (String × String)) : AuthOutcome :=
  match st.access with
  | none => ⟨.error "No access token available", [], st⟩
  | some tok =>
    let status := net 0 tok
    if status = 401 then
      let r := refreshTokens st svc
      if r.1 then
        let newTok := r.2.access.getD ""
        ⟨.ok (net 1 newTok),
          [.fetchReq 0 tok, .refreshCall, .fetchReq 1 newTok], r.2⟩
      else
        ⟨.error "Authentication expired", [.fetchReq 0 tok, .refreshCall], r.2⟩
    else ⟨.ok status, [.fetchReq 0 tok], st⟩

/-- Number of fetches in an event trace. -/
def countFetch (evs : List AuthEvent) : ℕ :=
  evs.countP (fun e => match e with | .fetchReq _ _ => true | _ => false)

/-- Number of `refreshTokens` invocations in an event trace. -/
def countRefresh (evs : List AuthEvent) : ℕ :=
  evs.countP (fun e => match e with | .refreshCall => true | _ => false)

/-! ## Concrete fixtures used in closed-instance theorems -/

/-- A freshly created template row, as `generate_secure_template` would
persist it. -/
def exampleFreshTemplate : SecureHTMLTemplate :=
  newSecureHTMLTemplate "BCR" "sinpe_movil" "p.amount" "p.merchant" "p.date"
    "" "monto: ([0-9.,]+)" "YYYY-MM-DD"

/-- A proven template: security validated with configured confidence 0.9. -/
def exampleTemplate : SecureHTMLTemplate :=
  { exampleFreshTemplate with security_validated := true, confidence_score := 0.9 }

/-- A known-bank notification message. -/
def exampleEmail : EmailData :=
  ⟨"BCR", "Notificación de transacción",
   "Purchase of 15,450.00 at MERCADO CENTRAL on 2024-01-15"⟩

/-- A concrete regex extractor whose rules match `exampleEmail`. -/
def exampleRegexExtract : SecureHTMLTemplate → String → List (String × String) :=
  fun _ _ =>
    [("amount", "15450.00"), ("merchant", "MERCADO CENTRAL"), ("date", "2024-01-15")]

/-- Concrete per-tier result confidences: only tier 2 clears its threshold. -/
def exampleResults : ℕ → ℚ := fun t => if t = 2 then 1 else 0

/-- Concrete per-tier acceptance thresholds. -/
def exampleThresholds : ℕ → ℚ := fun _ => 0

/-- Concrete network behavior: the first request gets 401, the retry 200. -/
def exampleNet : ℕ → String → ℕ := fun i _ => if i = 0 then 401 else 200

/-! ## Theorems -/

/-- A passing `validate_css_selectors` means no config value contains a
denylisted marker. -/
theorem validate_css_selectors_spec {config : List (String × String)}
    (h : validate_css_selectors config = true) :
    ∀ kv ∈ config, hasDangerousPattern kv.2 = false := by
  intro kv hkv
  have h' := List.all_eq_true.mp h kv hkv
  simpa using h'

/-- C1: counterexample — the synthesis attempt for a config whose selector
contains the denylisted marker `eval(` is not rejected: the sanitizer strips
the brackets, the modified selector `evalx` passes validation, and a
template is persisted, contradicting the claim that such an attempt is
rejected at synthesis time. -/
theorem c1_counterexample :
    hasDangerousPattern "eval(x)" = true ∧
    synthesize_template true true true [] [("amount_selector", "eval(x)")] =
      ([[("amount_selector", "evalx")]], true) := by
  constructor
  · decide
  · rfl

/-- C1 (amended): no template containing a denylisted injection marker is
ever persisted — the security validator rejects, before persistence, any
sanitized configuration in which some string still contains a marker; a
synthesis attempt whose sanitized selectors still contain a marker is
rejected outright.  (As the counterexample shows, attempts whose markers
are destroyed by character sanitization proceed with the modified selector
instead of being rejected.) -/
theorem c1_no_marker_persisted (cI rO oO : Bool)
    (store : List (List (String × String))) (raw : List (String × String))
    (hstore : ∀ cfg ∈ store, ∀ kv ∈ cfg, hasDangerousPattern kv.2 = false) :
    (∀ cfg ∈ (synthesize_template cI rO oO store raw).1,
      ∀ kv ∈ cfg, hasDangerousPattern kv.2 = false) ∧
    (validate_css_selectors (sanitize_css_selectors raw) = false →
      synthesize_template cI rO oO store raw = (store, false)) := by
  constructor
  · intro cfg hcfg kv hkv
    by_cases h : validate_template_security cI rO oO
        (sanitize_css_selectors raw) = true
    · simp only [synthesize_template, h, if_true, List.mem_append,
        List.mem_singleton] at hcfg
      rcases hcfg with h1 | rfl
      · exact hstore cfg h1 kv hkv
      · have hcss : validate_css_selectors (sanitize_css_selectors raw) = true := by
          simp only [validate_template_security, Bool.and_eq_true] at h
          exact h.1.1.1
        exact validate_css_selectors_spec hcss kv hkv
    · simp only [synthesize_template, h, if_false, Bool.not_eq_true] at hcfg
      simp only [Bool.not_eq_true] at h
      rw [if_neg (by simp [h])] at hcfg
      exact hstore cfg hcfg kv hkv
  · intro hcss
    simp [synthesize_template, validate_template_security, hcss]

/-- Witness for the amended C1 at a concrete marker-bearing input: a config
whose selector contains `javascript:` (which survives character
sanitization) is rejected and nothing is persisted. -/
theorem c1_no_marker_persisted_witness :
    synthesize_template true true true [] [("amount_selector", "javascript:x")] =
      ([], false) :=
  (c1_no_marker_persisted true true true [] [("amount_selector", "javascript:x")]
    (by simp)).2 (by decide)

/-- C3: counterexample — a selector containing the denylisted character `;`
is sanitized (the character is removed) and retained, not discarded: the
synthesis attempt proceeds with a modified string. -/
theorem c3_counterexample :
    sanitize_css_selectors [("amount_selector", "div.amount;")] =
      [("amount_selector", "div.amount")] ∧
    ("div.amount" : String) ≠ "div.amount;" := by
  constructor
  · rfl
  · decide

/-- C3 (amended): model output is coerced, not discarded — every entry kept
by `sanitize_css_selectors` has an allow-listed key and its value is the
original selector with the dangerous characters removed (kept only when
still a valid CSS selector); and when the synthesized parser validates
poorly the manager returns the regex fallback template rather than
discarding the attempt to Tier 4. -/
theorem c3_sanitize_coerces (config : List (String × String)) :
    (∀ kv ∈ sanitize_css_selectors config,
      allowed_output_keys.contains kv.1 = true ∧
      is_valid_css_selector kv.2 = true ∧
      ∃ v₀, (kv.1, v₀) ∈ config ∧ kv.2 = cleanSelector v₀) ∧
    (∀ score cfg, ¬ (0.7 : ℚ) < score →
      generate_secure_template score cfg = (.regexFallback, false)) := by
  constructor
  · intro kv hkv
    rw [sanitize_css_selectors, List.mem_filterMap] at hkv
    obtain ⟨a, ha, hfa⟩ := hkv
    by_cases hk : allowed_output_keys.contains a.1 = true
    · rw [if_pos hk] at hfa
      by_cases hv : is_valid_css_selector (cleanSelector a.2) = true
      · rw [if_pos hv] at hfa
        obtain ⟨h1, h2⟩ := Prod.mk.injEq .. ▸ Option.some.inj hfa
        refine ⟨?_, ?_, a.2, ?_, ?_⟩
        · rw [← h1]; exact hk
        · rw [← h2]; exact hv
        · rw [← h1]; exact ha
        · rw [← h2]
      · rw [if_neg hv] at hfa; cases hfa
    · rw [if_neg hk] at hfa; cases hfa
  · intro score cfg hscore
    unfold generate_secure_template
    rw [if_neg hscore]

/-- Witness for the amended C3 at a concrete input: the sanitized entry for
`div.amount;` satisfies the characterization, and a validation score of
`0.5` yields the regex fallback. -/
theorem c3_sanitize_coerces_witness :
    (allowed_output_keys.contains "amount_selector" = true ∧
      is_valid_css_selector "div.amount" = true ∧
      ∃ v₀, (("amount_selector", v₀) ∈
          [(("amount_selector" : String), ("div.amount;" : String))]) ∧
        ("div.amount" : String) = cleanSelector v₀) ∧
    generate_secure_template (0.5 : ℚ) [] = (.regexFallback, false) :=
  ⟨(c3_sanitize_coerces [("amount_selector", "div.amount;")]).1
      ("amount_selector", "div.amount") (by decide),
   (c3_sanitize_coerces []).2 0.5 [] (by norm_num)⟩

/-- C2: a template is created with `security_validated = false`; no
lifecycle event ever clears the flag (monotonicity, per event and over any
event sequence); the flag becomes true only through explicit human approval
or a success that reaches the promotion threshold; and with a threshold of
at least two, a single successful use of a fresh template never sets it. -/
theorem c2_security_validated_lifecycle (thr : ℕ) (hthr : 2 ≤ thr) :
    (∀ b n a m d r ar df,
      (newSecureHTMLTemplate b n a m d r ar df).security_validated = false) ∧
    (∀ t e, t.security_validated = true →
      (applyTemplateEvent thr t e).security_validated = true) ∧
    (∀ t evs, t.security_validated = true →
      (runTemplateEvents thr t evs).security_validated = true) ∧
    (∀ t e, (applyTemplateEvent thr t e).security_validated = true →
      t.security_validated = true ∨ e = .humanApprove ∨
        (e = .recordSuccess ∧ thr ≤ t.success_count + 1)) ∧
    (∀ b n a m d r ar df,
      (applyTemplateEvent thr (newSecureHTMLTemplate b n a m d r ar df)
        .recordSuccess).security_validated = false) := by
  have hstep : ∀ t e, t.security_validated = true →
      (applyTemplateEvent thr t e).security_validated = true := by
    intro t e ht
    cases e with
    | recordSuccess =>
      unfold applyTemplateEvent
      by_cases h : thr ≤ t.success_count + 1
      · rw [if_pos h]
      · rw [if_neg h]; exact ht
    | recordFailure => exact ht
    | humanApprove => rfl
  refine ⟨fun b n a m d r ar df => rfl, hstep, ?_, ?_, ?_⟩
  · intro t evs ht
    induction evs generalizing t with
    | nil => exact ht
    | cons e evs ih => exact ih _ (hstep t e ht)
  · intro t e hsv
    cases e with
    | recordSuccess =>
      unfold applyTemplateEvent at hsv
      by_cases h : thr ≤ t.success_count + 1
      · exact Or.inr (Or.inr ⟨rfl, h⟩)
      · rw [if_neg h] at hsv; exact Or.inl hsv
    | recordFailure => exact Or.inl hsv
    | humanApprove => exact Or.inr (Or.inl rfl)
  · intro b n a m d r ar df
    unfold applyTemplateEvent
    rw [if_neg (by simp [newSecureHTMLTemplate]; omega)]
    rfl

/-- Witness for C2 at threshold 3: a fresh template is unvalidated and stays
unvalidated after one successful use. -/
theorem c2_security_validated_lifecycle_witness :
    (newSecureHTMLTemplate "BCR" "t" "a" "m" "d" "r" "x" "f").security_validated
        = false ∧
    (applyTemplateEvent 3 (newSecureHTMLTemplate "BCR" "t" "a" "m" "d" "r" "x" "f")
        .recordSuccess).security_validated = false :=
  ⟨(c2_security_validated_lifecycle 3 (by norm_num)).1 "BCR" "t" "a" "m" "d" "r" "x" "f",
   (c2_security_validated_lifecycle 3 (by norm_num)).2.2.2.2
     "BCR" "t" "a" "m" "d" "r" "x" "f"⟩

/-- C4: counterexample — for a security-validated matching template whose
configured confidence is 0.9, the Tier 1 result's confidence is the
strategy constant 0.95, not the template's configured value. -/
theorem c4_counterexample :
    exampleTemplate.security_validated = true ∧
    (0.8 : ℚ) ≤ exampleTemplate.confidence_score ∧
    (tier1_extract exampleRegexExtract exampleTemplate exampleEmail).cost = 0 ∧
    (tier1_extract exampleRegexExtract exampleTemplate exampleEmail).confidence ≠
      exampleTemplate.confidence_score := by
  refine ⟨rfl, ?_, rfl, ?_⟩
  · show (0.8 : ℚ) ≤ 0.9
    norm_num
  · show (0.95 : ℚ) ≠ 0.9
    norm_num

/-- C4 (amended): for every message with a known institution and a
security-validated template of configured confidence at least 0.8 whose
rules match, the Tier 1 result carries the fixed confidence 0.95
(irrespective of the template's configured value), cost 0, and no external
inference call. -/
theorem c4_tier1_constant_confidence
    (rx : SecureHTMLTemplate → String → List (String × String))
    (t : SecureHTMLTemplate) (e : EmailData)
    (_hsec : t.security_validated = true)
    (_hconf : (0.8 : ℚ) ≤ t.confidence_score) :
    (tier1_extract rx t e).confidence = 0.95 ∧
    (tier1_extract rx t e).cost = 0 ∧
    (tier1_extract rx t e).external_calls = 0 :=
  ⟨rfl, rfl, rfl⟩

/-- Witness for the amended C4 on the concrete BCR template and message. -/
theorem c4_tier1_constant_confidence_witness :
    (tier1_extract exampleRegexExtract exampleTemplate exampleEmail).confidence
        = 0.95 ∧
    (tier1_extract exampleRegexExtract exampleTemplate exampleEmail).cost = 0 ∧
    (tier1_extract exampleRegexExtract exampleTemplate exampleEmail).external_calls
        = 0 :=
  c4_tier1_constant_confidence exampleRegexExtract exampleTemplate exampleEmail
    rfl (by norm_num [exampleTemplate])

/-- Every tier in the escalation trace comes from the given tier list. -/
theorem escalate_tiers_trace_mem (results thresholds : ℕ → ℚ) :
    ∀ l : List ℕ, ∀ u ∈ (escalate_tiers results thresholds l).1, u ∈ l := by
  intro l
  induction l with
  | nil => intro u hu; exact absurd hu (by simp [escalate_tiers])
  | cons t ts ih =>
    intro u hu
    unfold escalate_tiers at hu
    by_cases h : tier_accepts results thresholds t = true
    · rw [if_pos h] at hu
      simp only [List.mem_singleton] at hu
      exact hu ▸ List.mem_cons_self t ts
    · rw [if_neg h] at hu
      rcases List.mem_cons.mp hu with rfl | hu'
      · exact List.mem_cons_self u ts
      · exact List.mem_cons_of_mem t (ih u hu')

/-- The escalation trace is a `take`-prefix of the tier list. -/
theorem escalate_tiers_trace_take (results thresholds : ℕ → ℚ) :
    ∀ l : List ℕ, ∃ k, (escalate_tiers results thresholds l).1 = l.take k := by
  intro l
  induction l with
  | nil => exact ⟨0, rfl⟩
  | cons t ts ih =>
    unfold escalate_tiers
    by_cases h : tier_accepts results thresholds t = true
    · rw [if_pos h]; exact ⟨1, by simp⟩
    · rw [if_neg h]
      obtain ⟨k, hk⟩ := ih
      exact ⟨k + 1, by simp [hk]⟩

/-- When a tier is selected, the trace is the failing tiers followed by the
selected tier, which accepts. -/
theorem escalate_tiers_some (results thresholds : ℕ → ℚ) :
    ∀ l : List ℕ, ∀ t, (escalate_tiers results thresholds l).2 = some t →
      tier_accepts results thresholds t = true ∧
      ∃ pre, (escalate_tiers results thresholds l).1 = pre ++ [t] ∧
        ∀ u ∈ pre, tier_accepts results thresholds u = false := by
  intro l
  induction l with
  | nil => intro t ht; exact absurd ht (by simp [escalate_tiers])
  | cons hd ts ih =>
    intro t ht
    unfold escalate_tiers at ht ⊢
    by_cases h : tier_accepts results thresholds hd = true
    · rw [if_pos h] at ht ⊢
      obtain rfl : hd = t := by simpa using ht
      exact ⟨h, [], rfl, by simp⟩
    · rw [if_neg h] at ht ⊢
      obtain ⟨hacc, pre, hpre, hfail⟩ := ih t ht
      refine ⟨hacc, hd :: pre, by simp [hpre], ?_⟩
      intro u hu
      rcases List.mem_cons.mp hu with rfl | hu'
      · exact Bool.not_eq_true _ ▸ eq_false_of_ne_true h
      · exact hfail u hu'

/-- When no tier is selected, every tier ran and every tier failed its
threshold. -/
theorem escalate_tiers_none (results thresholds : ℕ → ℚ) :
    ∀ l : List ℕ, (escalate_tiers results thresholds l).2 = none →
      (escalate_tiers results thresholds l).1 = l ∧
      ∀ u ∈ l, tier_accepts results thresholds u = false := by
  intro l
  induction l with
  | nil => intro _; exact ⟨rfl, by simp⟩
  | cons hd ts ih =>
    intro hnone
    unfold escalate_tiers at hnone ⊢
    by_cases h : tier_accepts results thresholds hd = true
    · rw [if_pos h] at hnone; cases hnone
    · rw [if_neg h] at hnone ⊢
      obtain ⟨htr, hall⟩ := ih hnone
      refine ⟨by simp [htr], ?_⟩
      intro u hu
      rcases List.mem_cons.mp hu with rfl | hu'
      · exact eq_false_of_ne_true h
      · exact hall u hu'

/-- C5: within one processing attempt the tiers run in strictly ascending
order 1,2,3,4 with no tier repeated and no lower tier after a higher one
(the trace is a prefix of `[1,2,3,4]` and strictly sorted); the engine
stops at the first tier whose result confidence exceeds its acceptance
threshold (every earlier tier failed its threshold and the selected tier is
last in the trace); and when no tier accepts, all four tiers ran and all
failed. -/
theorem c5_tier_escalation_order (results thresholds : ℕ → ℚ) :
    (∃ k, (process_email_tiers results thresholds).1 = [1, 2, 3, 4].take k) ∧
    List.Pairwise (· < ·) (process_email_tiers results thresholds).1 ∧
    (∀ t, (process_email_tiers results thresholds).2 = some t →
      tier_accepts results thresholds t = true ∧
      ∃ pre, (process_email_tiers results thresholds).1 = pre ++ [t] ∧
        ∀ u ∈ pre, tier_accepts results thresholds u = false ∧ u < t) ∧
    ((process_email_tiers results thresholds).2 = none →
      (process_email_tiers results thresholds).1 = [1, 2, 3, 4] ∧
      ∀ u ∈ [1, 2, 3, 4], tier_accepts results thresholds u = false) := by
  obtain ⟨k, hk⟩ := escalate_tiers_trace_take results thresholds [1, 2, 3, 4]
  have hpw : List.Pairwise (· < ·) (process_email_tiers results thresholds).1 := by
    rw [process_email_tiers, hk]
    exact List.Pairwise.sublist (List.take_sublist k _) (by decide)
  refine ⟨⟨k, hk⟩, hpw, ?_, ?_⟩
  · intro t ht
    obtain ⟨hacc, pre, hpre, hfail⟩ :=
      escalate_tiers_some results thresholds [1, 2, 3, 4] t ht
    refine ⟨hacc, pre, hpre, ?_⟩
    intro u hu
    refine ⟨hfail u hu, ?_⟩
    have hpw' : List.Pairwise (· < ·)
        ((escalate_tiers results thresholds [1, 2, 3, 4]).1) := hpw
    rw [hpre] at hpw'
    exact (List.pairwise_append.mp hpw').2.2 u hu t (List.mem_singleton_self t)
  · intro hnone
    obtain ⟨htr, hall⟩ := escalate_tiers_none results thresholds [1, 2, 3, 4] hnone
    exact ⟨htr, hall⟩

/-- Witness for C5 on concrete confidences where only tier 2 clears its
threshold: tiers 1 and 2 run, tier 1 fails, tier 2 is selected. -/
theorem c5_tier_escalation_order_witness :
    tier_accepts exampleResults exampleThresholds 2 = true ∧
    ∃ pre, (process_email_tiers exampleResults exampleThresholds).1 = pre ++ [2] ∧
      ∀ u ∈ pre, tier_accepts exampleResults exampleThresholds u = false ∧ u < 2 :=
  (c5_tier_escalation_order exampleResults exampleThresholds).2.2.1 2 (by decide)

/-- C6: the finalized confidence of `validate_and_learn` equals the minimum
of the three validation-check confidences, and is therefore bounded by each
check individually — one failing check demotes the result regardless of the
other two — and always coincides with one of the checks. -/
theorem c6_min_consolidation (thr : ℕ) (auto stat sim : ℚ)
    (t : SecureHTMLTemplate) :
    (validate_and_learn thr auto stat sim t).1.confidence =
      min auto (min stat sim) ∧
    (validate_and_learn thr auto stat sim t).1.confidence ≤ auto ∧
    (validate_and_learn thr auto stat sim t).1.confidence ≤ stat ∧
    (validate_and_learn thr auto stat sim t).1.confidence ≤ sim ∧
    (consolidate_validations auto stat sim = auto ∨
      consolidate_validations auto stat sim = stat ∨
      consolidate_validations auto stat sim = sim) := by
  have hc : (validate_and_learn thr auto stat sim t).1.confidence =
      consolidate_validations auto stat sim := rfl
  refine ⟨hc, ?_, ?_, ?_, ?_⟩
  · rw [hc]; exact min_le_left _ _
  · rw [hc]; exact le_trans (min_le_right _ _) (min_le_left _ _)
  · rw [hc]; exact le_trans (min_le_right _ _) (min_le_right _ _)
  · unfold consolidate_validations
    rcases le_total auto (min stat sim) with h | h
    · exact Or.inl (min_eq_left h)
    · rw [min_eq_right h]
      rcases le_total stat sim with h' | h'
      · exact Or.inr (Or.inl (min_eq_left h'))
      · exact Or.inr (Or.inr (min_eq_right h'))

/-- C7: counterexample — at a final confidence of exactly 0.9 (which
satisfies the claim's "greater than or equal to 0.9") the template's
success count is not incremented: the code reinforces only on strictly
greater than 0.9. -/
theorem c7_counterexample :
    (0.9 : ℚ) ≥ 0.9 ∧
    consolidate_validations 0.9 0.9 0.9 = (0.9 : ℚ) ∧
    exampleFreshTemplate.success_count = 0 ∧
    (validate_and_learn 3 0.9 0.9 0.9 exampleFreshTemplate).2.1.success_count
      = 0 := by
  refine ⟨le_refl _, by simp [consolidate_validations], rfl, ?_⟩
  show (if (0.9 : ℚ) < consolidate_validations 0.9 0.9 0.9 then
      applyTemplateEvent 3 exampleFreshTemplate .recordSuccess
    else exampleFreshTemplate).success_count = 0
  rw [if_neg (by simp [consolidate_validations])]
  rfl

/-- C7 (amended): when the final confidence is strictly greater than 0.9
the used template's success count is incremented, with promotion of
`security_validated` when that count reaches the threshold; when it is not,
the template is untouched; and when the final confidence is below 0.8 the
result is flagged `needs_review` and routed to human review. -/
theorem c7_learning_policy (thr : ℕ) (auto stat sim : ℚ)
    (t : SecureHTMLTemplate) :
    ((0.9 : ℚ) < consolidate_validations auto stat sim →
      (validate_and_learn thr auto stat sim t).2.1.success_count =
        t.success_count + 1 ∧
      (thr ≤ t.success_count + 1 →
        (validate_and_learn thr auto stat sim t).2.1.security_validated = true)) ∧
    (¬ (0.9 : ℚ) < consolidate_validations auto stat sim →
      (validate_and_learn thr auto stat sim t).2.1 = t) ∧
    (consolidate_validations auto stat sim < (0.8 : ℚ) →
      (validate_and_learn thr auto stat sim t).1.needs_review = true ∧
      (validate_and_learn thr auto stat sim t).2.2 = true) := by
  refine ⟨?_, ?_, ?_⟩
  · intro h
    have ht : (validate_and_learn thr auto stat sim t).2.1 =
        applyTemplateEvent thr t .recordSuccess := by
      show (if (0.9 : ℚ) < consolidate_validations auto stat sim then
          applyTemplateEvent thr t .recordSuccess else t) =
        applyTemplateEvent thr t .recordSuccess
      rw [if_pos h]
    constructor
    · rw [ht]
      unfold applyTemplateEvent
      by_cases hp : thr ≤ t.success_count + 1
      · rw [if_pos hp]
      · rw [if_neg hp]
    · intro hp
      rw [ht]
      unfold applyTemplateEvent
      rw [if_pos hp]
  · intro h
    show (if (0.9 : ℚ) < consolidate_validations auto stat sim then
        applyTemplateEvent thr t .recordSuccess else t) = t
    rw [if_neg h]
  · intro h
    exact ⟨by simpa [validate_and_learn] using h, by simpa [validate_and_learn] using h⟩

/-- Witness for the amended C7: at final confidence 0.95 the fresh
template's success count becomes 1, and at final confidence 0.5 the result
is routed to review. -/
theorem c7_learning_policy_witness :
    ((validate_and_learn 3 0.95 0.95 0.95 exampleFreshTemplate).2.1.success_count =
      exampleFreshTemplate.success_count + 1) ∧
    ((validate_and_learn 3 0.5 0.9 0.9 exampleFreshTemplate).1.needs_review = true) :=
  ⟨((c7_learning_policy 3 0.95 0.95 0.95 exampleFreshTemplate).1
      (by
        have h : consolidate_validations 0.95 0.95 0.95 = (0.95 : ℚ) := by
          simp [consolidate_validations]
        rw [h]; norm_num)).1,
   ((c7_learning_policy 3 0.5 0.9 0.9 exampleFreshTemplate).2.2
      (by
        have h : consolidate_validations 0.5 0.9 0.9 = (0.5 : ℚ) := by
          unfold consolidate_validations
          rw [min_self]
          exact min_eq_left (by norm_num)
        rw [h]; norm_num)).1⟩

/-- Reading back the digit character of a digit value below 10. -/
theorem charVal_ofDigit {r : ℕ} (h : r < 10) :
    charVal (Char.ofNat (48 + r)) = some r := by
  interval_cases r <;> rfl

/-- Reading back any digit character produced by `valChar`. -/
theorem charVal_valChar (d : ℕ) : charVal (valChar d) = some (d % 10) := by
  unfold valChar
  exact charVal_ofDigit (Nat.mod_lt _ (by norm_num))

/-- Digit characters are never the comma separator. -/
theorem valChar_beq_comma (d : ℕ) : (valChar d == ',') = false := by
  unfold valChar
  obtain ⟨r, hr, hlt⟩ : ∃ r, d % 10 = r ∧ r < 10 :=
    ⟨d % 10, rfl, Nat.mod_lt _ (by norm_num)⟩
  rw [hr]
  interval_cases r <;> decide

/-- Digit characters are never the decimal point. -/
theorem valChar_ne_dot (d : ℕ) : valChar d ≠ '.' := by
  unfold valChar
  obtain ⟨r, hr, hlt⟩ : ∃ r, d % 10 = r ∧ r < 10 :=
    ⟨d % 10, rfl, Nat.mod_lt _ (by norm_num)⟩
  rw [hr]
  interval_cases r <;> decide

/-- The fueled digit printer emits only `valChar` characters. -/
theorem natDigitsAux_chars (fuel : ℕ) :
    ∀ n c, c ∈ natDigitsAux fuel n → ∃ d, c = valChar d := by
  induction fuel with
  | zero => intro n c hc; cases hc
  | succ fuel ih =>
    intro n c hc
    cases n with
    | zero => cases hc
    | succ m =>
      have hstep : natDigitsAux (fuel + 1) (m + 1) =
          valChar ((m + 1) % 10) :: natDigitsAux fuel ((m + 1) / 10) := rfl
      rw [hstep] at hc
      rcases List.mem_cons.mp hc with rfl | h'
      · exact ⟨(m + 1) % 10, rfl⟩
      · exact ih _ c h'

/-- The decimal print of a natural number consists of digit characters. -/
theorem natDigits_chars (n : ℕ) :
    ∀ c ∈ natDigits n, ∃ d, c = valChar d := by
  intro c hc
  unfold natDigits at hc
  by_cases h : n = 0
  · rw [if_pos h] at hc
    rcases List.mem_singleton.mp hc with rfl
    exact ⟨0, by decide⟩
  · rw [if_neg h] at hc
    exact natDigitsAux_chars n n c (List.mem_reverse.mp hc)

/-- Accumulating digit parsing distributes over list append. -/
theorem digitsToNatAux_append (l1 l2 : List Char) (acc : ℕ) :
    digitsToNatAux (l1 ++ l2) acc =
      (digitsToNatAux l1 acc).bind (fun m => digitsToNatAux l2 m) := by
  induction l1 generalizing acc with
  | nil => rfl
  | cons c cs ih =>
    simp only [List.cons_append]
    cases hcv : charVal c with
    | some d =>
      simp only [digitsToNatAux, hcv]
      exact ih _
    | none => simp only [digitsToNatAux, hcv, Option.none_bind]

/-- Parsing back the fueled digit print, in accumulator form. -/
theorem natDigitsAux_spec (fuel : ℕ) :
    ∀ n acc rest, n ≤ fuel →
      digitsToNatAux ((natDigitsAux fuel n).reverse ++ rest) acc =
        digitsToNatAux rest (acc * 10 ^ (natDigitsAux fuel n).length + n) := by
  induction fuel with
  | zero =>
    intro n acc rest hn
    obtain rfl : n = 0 := Nat.le_zero.mp hn
    simp [natDigitsAux]
  | succ fuel ih =>
    intro n acc rest hn
    cases n with
    | zero => simp [natDigitsAux]
    | succ m =>
      have hq : (m + 1) / 10 ≤ fuel := by
        have := Nat.div_lt_self (Nat.succ_pos m) (by norm_num : 1 < 10)
        omega
      have hstep : natDigitsAux (fuel + 1) (m + 1) =
          valChar ((m + 1) % 10) :: natDigitsAux fuel ((m + 1) / 10) := rfl
      rw [hstep, List.reverse_cons, List.append_assoc,
        ih ((m + 1) / 10) acc _ hq]
      have hcv : charVal (valChar ((m + 1) % 10)) = some ((m + 1) % 10) := by
        rw [charVal_valChar, Nat.mod_mod_of_dvd _ (dvd_refl 10)]
      simp only [List.singleton_append, digitsToNatAux, hcv]
      congr 1
      rw [List.length_cons, pow_succ, ← mul_assoc]
      generalize acc * 10 ^ (natDigitsAux fuel ((m + 1) / 10)).length = A
      omega

/-- Parsing the decimal print of any natural number recovers it. -/
theorem digitsToNat_natDigits (n : ℕ) : digitsToNat (natDigits n) = some n := by
  cases n with
  | zero => rfl
  | succ m =>
    have hne : m + 1 ≠ 0 := Nat.succ_ne_zero m
    unfold natDigits
    rw [if_neg hne]
    have hcons : natDigitsAux (m + 1) (m + 1) =
        valChar ((m + 1) % 10) :: natDigitsAux m ((m + 1) / 10) := rfl
    unfold digitsToNat
    rw [if_neg (by rw [hcons]; simp)]
    have hspec := natDigitsAux_spec (m + 1) (m + 1) 0 [] (le_refl _)
    simpa using hspec

/-- Parsing a two-digit fractional block. -/
theorem digitsToNat_pair {x y : ℕ} (hx : x < 10) (hy : y < 10) :
    digitsToNat [valChar x, valChar y] = some (10 * x + y) := by
  unfold digitsToNat
  rw [if_neg (by simp)]
  have hcx : charVal (valChar x) = some x := by
    rw [charVal_valChar, Nat.mod_eq_of_lt hx]
  have hcy : charVal (valChar y) = some y := by
    rw [charVal_valChar, Nat.mod_eq_of_lt hy]
  simp only [digitsToNatAux, hcx, hcy]
  norm_num

/-- `splitAtDot` splits exactly at an explicit decimal point when the prefix
contains none. -/
theorem splitAtDot_append (l r : List Char) (h : ∀ c ∈ l, c ≠ '.') :
    splitAtDot (l ++ '.' :: r) = (l, '.' :: r) := by
  induction l with
  | nil => simp [splitAtDot]
  | cons c cs ih =>
    have hc : c ≠ '.' := h c (List.mem_cons_self c cs)
    simp only [List.cons_append, splitAtDot, if_neg hc, List.append_eq]
    rw [ih (fun x hx => h x (List.mem_cons_of_mem c hx))]

/-- A list of non-comma characters is unchanged by the comma filter. -/
theorem comma_filter_eq_self (l : List Char)
    (h : ∀ c ∈ l, (c == ',') = false) :
    l.filter (fun c => !(c == ',')) = l := by
  induction l with
  | nil => rfl
  | cons c cs ih =>
    rw [List.filter_cons_of_pos (by simp [h c (List.mem_cons_self c cs)]),
      ih (fun x hx => h x (List.mem_cons_of_mem c hx))]

/-- Round trip: parsing a formatted amount recovers it exactly. -/
theorem parse_formatAmount (a : DecimalAmount) :
    safe_extract_amount (formatAmount a) = some a := by
  obtain ⟨c⟩ := a
  have hfilter : (natDigits (c / 100) ++
      '.' :: valChar (c % 100 / 10) :: [valChar (c % 10)]).filter
        (fun ch => !(ch == ',')) =
      natDigits (c / 100) ++ '.' :: valChar (c % 100 / 10) :: [valChar (c % 10)] := by
    apply comma_filter_eq_self
    intro ch hch
    rcases List.mem_append.mp hch with hd | hd
    · obtain ⟨d, rfl⟩ := natDigits_chars _ ch hd
      exact valChar_beq_comma d
    · rcases List.mem_cons.mp hd with rfl | hd'
      · rfl
      · rcases List.mem_cons.mp hd' with rfl | hd''
        · exact valChar_beq_comma _
        · rcases List.mem_singleton.mp hd'' with rfl
          exact valChar_beq_comma _
  have hsplit : splitAtDot (natDigits (c / 100) ++
      '.' :: valChar (c % 100 / 10) :: [valChar (c % 10)]) =
      (natDigits (c / 100), '.' :: valChar (c % 100 / 10) :: [valChar (c % 10)]) := by
    apply splitAtDot_append
    intro ch hch
    obtain ⟨d, rfl⟩ := natDigits_chars _ ch hch
    exact valChar_ne_dot d
  have hint : digitsToNat (natDigits (c / 100)) = some (c / 100) :=
    digitsToNat_natDigits _
  have hfrac : digitsToNat [valChar (c % 100 / 10), valChar (c % 10)] =
      some (10 * (c % 100 / 10) + c % 10) :=
    digitsToNat_pair (by omega) (Nat.mod_lt _ (by norm_num))
  show (parseAmountChars (natDigits (c / 100) ++
      '.' :: valChar (c % 100 / 10) :: [valChar (c % 10)])).map DecimalAmount.mk =
    some ⟨c⟩
  simp only [parseAmountChars, hfilter, hsplit, hint, hfrac, List.length_cons,
    List.length_nil, Option.map_some']
  norm_num
  omega

/-- C8: the amount literal `1,234.50` extracts to exactly 123450 cents, whose
value is the exact rational 1234.50; the representation is exact fixed-point
(one hundred times any amount's value is its integral cent count); parsing
any formatted amount recovers it unchanged; and extraction round-trips —
re-extracting the rendering of any extracted value yields the identical
value. -/
theorem c8_amount_exact_roundtrip :
    safe_extract_amount "1,234.50" = some ⟨123450⟩ ∧
    amountToRat ⟨123450⟩ = 1234.50 ∧
    (∀ a : DecimalAmount, amountToRat a * 100 = (a.cents : ℚ)) ∧
    (∀ a : DecimalAmount, safe_extract_amount (formatAmount a) = some a) ∧
    (∀ s : String, ∀ a : DecimalAmount, safe_extract_amount s = some a →
      safe_extract_amount (formatAmount a) = some a) := by
  refine ⟨by decide, by norm_num [amountToRat], ?_, parse_formatAmount, ?_⟩
  · intro a
    unfold amountToRat
    field_simp
  · intro s a _
    exact parse_formatAmount a

/-- Witness for C8 at the concrete extracted value of `1,234.50`. -/
theorem c8_amount_exact_roundtrip_witness :
    safe_extract_amount (formatAmount ⟨123450⟩) = some ⟨123450⟩ :=
  c8_amount_exact_roundtrip.2.2.2.2 "1,234.50" ⟨123450⟩ (by decide)

/-- C9: entity decoding runs before pattern matching, so any two message
bodies with the same decoded normal form extract the same merchant; the
source's documented example (`N&uacute;` to `Nú`) decodes as stated; and a
body whose accented merchant name is entity-encoded extracts exactly the
same decoded merchant string as its plainly encoded counterpart. -/
theorem c9_entity_decoding :
    (∀ b1 b2 : String, clean_html_entities b1 = clean_html_entities b2 →
      extract_merchant b1 = extract_merchant b2) ∧
    clean_html_entities "N&uacute;mero" = "Número" ∧
    extract_merchant "Purchase of 15,450.00 at CAF&Eacute; VOLIO on 2024-01-15" =
      some "CAFÉ VOLIO" ∧
    extract_merchant "Purchase of 15,450.00 at CAFÉ VOLIO on 2024-01-15" =
      some "CAFÉ VOLIO" := by
  refine ⟨?_, by decide, by decide, by decide⟩
  intro b1 b2 h
  unfold extract_merchant
  rw [h]

/-- Witness for C9: the entity-encoded body and the plain body of the
scenario extract the same merchant after normalization. -/
theorem c9_entity_decoding_witness :
    extract_merchant "Purchase of 15,450.00 at CAF&Eacute; VOLIO on 2024-01-15" =
      extract_merchant "Purchase of 15,450.00 at CAFÉ VOLIO on 2024-01-15" :=
  c9_entity_decoding.1 _ _ (by decide)

/-- A successful `refreshTokens` comes from an OK refresh response and
stores exactly the returned token pair. -/
theorem refreshTokens_true_access (st : StoredAuth)
    (svc : Option (String × String)) (h : (refreshTokens st svc).1 = true) :
    ∃ a r u, svc = some (a, r) ∧
      (refreshTokens st svc).2 = ⟨some a, some r, some u⟩ := by
  obtain ⟨sa, sr, su⟩ := st
  cases sr with
  | none => simp [refreshTokens] at h
  | some rt =>
    cases svc with
    | none => simp [refreshTokens] at h
    | some p =>
      obtain ⟨pa, pr⟩ := p
      cases su with
      | none => simp [refreshTokens] at h
      | some u => exact ⟨pa, pr, u, rfl, rfl⟩

/-- The event trace of one `makeAuthenticatedRequest` call takes one of
four shapes: no action, one fetch, one fetch plus one refresh, or one
fetch, one refresh and one retry fetch. -/
theorem makeAuthenticatedRequest_events (st : StoredAuth)
    (net : ℕ → String → ℕ) (svc : Option (String × String)) :
    (makeAuthenticatedRequest st net svc).events = [] ∨
    (∃ tok, (makeAuthenticatedRequest st net svc).events =
      [.fetchReq 0 tok]) ∨
    (∃ tok, (makeAuthenticatedRequest st net svc).events =
      [.fetchReq 0 tok, .refreshCall]) ∨
    (∃ tok tok', (makeAuthenticatedRequest st net svc).events =
      [.fetchReq 0 tok, .refreshCall, .fetchReq 1 tok']) := by
  obtain ⟨sa, sr, su⟩ := st
  cases sa with
  | none => exact Or.inl rfl
  | some tok =>
    by_cases h401 : net 0 tok = 401
    · cases hr : (refreshTokens ⟨some tok, sr, su⟩ svc).1
      · refine Or.inr (Or.inr (Or.inl ⟨tok, ?_⟩))
        simp [makeAuthenticatedRequest, h401, hr]
      · refine Or.inr (Or.inr (Or.inr
          ⟨tok, (refreshTokens ⟨some tok, sr, su⟩ svc).2.access.getD "", ?_⟩))
        simp [makeAuthenticatedRequest, h401, hr]
    · refine Or.inr (Or.inl ⟨tok, ?_⟩)
      simp [makeAuthenticatedRequest, h401]

/-- C10: one `makeAuthenticatedRequest` call performs at most one token
refresh and at most two fetches; with no stored access token it throws
without contacting the network; a non-401 first response is returned after
a single fetch with no refresh; a 401 first response triggers exactly one
`refreshTokens` call, after which a successful refresh leads to exactly one
retry carrying the newly stored access token — whose response is returned
whatever its status — while a failed refresh throws
`Authentication expired` with no retry. -/
theorem c10_auth_retry_once (st : StoredAuth) (net : ℕ → String → ℕ)
    (svc : Option (String × String)) :
    countRefresh (makeAuthenticatedRequest st net svc).events ≤ 1 ∧
    countFetch (makeAuthenticatedRequest st net svc).events ≤ 2 ∧
    (st.access = none →
      makeAuthenticatedRequest st net svc =
        ⟨.error "No access token available", [], st⟩) ∧
    (∀ tok, st.access = some tok →
      (net 0 tok ≠ 401 →
        makeAuthenticatedRequest st net svc =
          ⟨.ok (net 0 tok), [.fetchReq 0 tok], st⟩) ∧
      (net 0 tok = 401 → (refreshTokens st svc).1 = true →
        (refreshTokens st svc).2.access ≠ none ∧
        makeAuthenticatedRequest st net svc =
          ⟨.ok (net 1 ((refreshTokens st svc).2.access.getD "")),
            [.fetchReq 0 tok, .refreshCall,
              .fetchReq 1 ((refreshTokens st svc).2.access.getD "")],
            (refreshTokens st svc).2⟩) ∧
      (net 0 tok = 401 → (refreshTokens st svc).1 = false →
        makeAuthenticatedRequest st net svc =
          ⟨.error "Authentication expired", [.fetchReq 0 tok, .refreshCall],
            (refreshTokens st svc).2⟩)) := by
  refine ⟨?_, ?_, ?_, ?_⟩
  · rcases makeAuthenticatedRequest_events st net svc with h | ⟨t, h⟩ | ⟨t, h⟩ | ⟨t, t', h⟩ <;>
      simp [h, countRefresh]
  · rcases makeAuthenticatedRequest_events st net svc with h | ⟨t, h⟩ | ⟨t, h⟩ | ⟨t, t', h⟩ <;>
      simp [h, countFetch]
  · intro hnone
    obtain ⟨sa, sr, su⟩ := st
    simp only at hnone
    subst hnone
    rfl
  · intro tok htok
    obtain ⟨sa, sr, su⟩ := st
    simp only at htok
    subst htok
    refine ⟨?_, ?_, ?_⟩
    · intro h401
      simp [makeAuthenticatedRequest, h401]
    · intro h401 hr
      obtain ⟨a, r, u, hsvc, hres⟩ :=
        refreshTokens_true_access ⟨some tok, sr, su⟩ svc hr
      refine ⟨by rw [hres]; simp, ?_⟩
      simp [makeAuthenticatedRequest, h401, hr]
    · intro h401 hr
      simp [makeAuthenticatedRequest, h401, hr]

/-- Witness for C10 on a concrete 401-then-refresh-then-retry run. -/
theorem c10_auth_retry_once_witness :
    makeAuthenticatedRequest ⟨some "A", some "R", some "U"⟩ exampleNet
        (some ("A2", "R2")) =
      ⟨.ok (exampleNet 1 ((refreshTokens ⟨some "A", some "R", some "U"⟩
          (some ("A2", "R2"))).2.access.getD "")),
        [.fetchReq 0 "A", .refreshCall,
          .fetchReq 1 ((refreshTokens ⟨some "A", some "R", some "U"⟩
            (some ("A2", "R2"))).2.access.getD "")],
        (refreshTokens ⟨some "A", some "R", some "U"⟩ (some ("A2", "R2"))).2⟩ :=
  (((c10_auth_retry_once ⟨some "A", some "R", some "U"⟩ exampleNet
      (some ("A2", "R2"))).2.2.2 "A" rfl).2.1 (by decide) (by decide)).2

end AFP
